import Mathlib

/-
Verification of the NTLM authenticating connection pool
(requests/packages/urllib3/contrib/ntlmpool.py).

The Python module is shallowly embedded: dictionaries become ordered
association lists with Python assignment semantics, the two scripted HTTP
responses are passed in explicitly, and the external `ntlm` codec library
is a record of abstract functions.  The handshake `_new_conn` is modelled
as a pure function returning a trace (requests issued, socket-detach and
close effects) together with an `Except` outcome mirroring the raised
exceptions.
-/

deriving instance DecidableEq for Except

namespace Ntlmpool

/-- Python dict assignment `m[k] = v`: replaces the value of an existing
key in place (keeping its position) or appends a fresh binding. -/
def dictInsert (m : List (String × String)) (k v : String) :
    List (String × String) :=
  match m with
  | [] => [(k, v)]
  | (k₀, v₀) :: rest =>
    if k₀ = k then (k, v) :: rest else (k₀, v₀) :: dictInsert rest k v

/-- Python dict lookup `m[k]` (exact, case-sensitive key match); `none`
models a `KeyError`. -/
def dictGet? (m : List (String × String)) (k : String) : Option String :=
  match m with
  | [] => none
  | (k₀, v₀) :: rest => if k₀ = k then some v₀ else dictGet? rest k

/-- `dict(pairs)`: builds a dict from a pair list, later duplicates
overwriting earlier ones (embeds `reshdr = dict(res.getheaders())`). -/
def pyDict (l : List (String × String)) : List (String × String) :=
  l.foldl (fun m kv => dictInsert m kv.1 kv.2) []

/-- Python `s.upper()`, character by character. -/
def pyUpper (s : String) : String := String.mk (s.data.map Char.toUpper)

/-- Python slicing `s[:n]`. -/
def pyTake (n : Nat) (s : String) : String := String.mk (s.data.take n)

/-- Python slicing `s[n:]`. -/
def pyDrop (n : Nat) (s : String) : String := String.mk (s.data.drop n)

/-- First occurrence of the separator `sep` in a character list:
`some (before, after)` when present, `none` otherwise. -/
def findSep? (sep : List Char) : List Char → Option (List Char × List Char)
  | [] => none
  | c :: cs =>
    if (c :: cs).take sep.length = sep then some ([], (c :: cs).drop sep.length)
    else
      match findSep? sep cs with
      | none => none
      | some (a, b) => some (c :: a, b)

/-- Repeatedly split off tokens at each occurrence of the separator; the
fuel argument (always at least the list length plus one) only bounds the
recursion. -/
def pySplitGo (sep : List Char) : Nat → List Char → List (List Char)
  | 0, l => [l]
  | fuel + 1, l =>
    match findSep? sep l with
    | none => [l]
    | some (a, b) => a :: pySplitGo sep fuel b

/-- Python `s.split(sep)` for a non-empty separator: left-to-right,
non-overlapping occurrences, keeping empty tokens. -/
def pySplit (s sep : String) : List String :=
  (pySplitGo sep.data (s.data.length + 1) s.data).map String.mk

/-- First occurrence of `sep` in a character list: `some (before, after)`
when present, `none` otherwise.  Embeds Python `s.split(sep, 1)`. -/
def splitFirstAux (sep : Char) : List Char → Option (List Char × List Char)
  | [] => none
  | c :: cs =>
    if c = sep then some ([], cs)
    else
      match splitFirstAux sep cs with
      | none => none
      | some (a, b) => some (c :: a, b)

/-- The pool state produced by `NTLMConnectionPool.__init__`. -/
structure Pool where
  host : String
  port : Nat
  authurl : String
  rawuser : String
  domain : String
  user : String
  pw : String
deriving DecidableEq

/-- Error raised by `__init__`: `user_parts[1]` raises `IndexError` when
`user.split(chr(92), 1)` yields a single part (no backslash present). -/
inductive InitError where
  | indexError : InitError
deriving DecidableEq

/-- `NTLMConnectionPool.__init__`: stores `authurl`, the raw identifier,
splits it on the first backslash into `domain` (upper-cased) and `user`,
and stores the password.  Indexing `user_parts[1]` fails when there is no
backslash. -/
def poolInit (user pw authurl host : String) (port : Nat) :
    Except InitError Pool :=
  match splitFirstAux '\\' user.data with
  | none => .error .indexError
  | some (d, u) =>
    .ok ⟨host, port, authurl, user, pyUpper (String.mk d), String.mk u, pw⟩

/-- The loop of `_new_conn` lines 79-81: scan the split header tokens and
keep assigning `s[5:]` whenever `s[:5] == chr(78) ...` matches the string
NTLM followed by a space; the final assignment wins. -/
def findChallenge (vals : List String) : Option String :=
  vals.foldl
    (fun acc s => if pyTake 5 s = "NTLM " then some (pyDrop 5 s) else acc) none

/-- Challenge extraction from a raw `www-authenticate` header value:
split on comma-space, then run the scanning loop. -/
def extractChallenge (hv : String) : Option String :=
  findChallenge (pySplit hv ", ")

/-- An HTTP response as seen by the handshake: status, reason phrase and
the header pair list returned by `res.getheaders()`. -/
structure Response where
  status : Nat
  reason : String
  headers : List (String × String)
deriving DecidableEq

/-- The external `ntlm` codec library, kept abstract: the handshake only
passes its outputs around. -/
structure NtlmLib where
  createNegotiate : String → String
  parseChallenge : String → String × Nat
  createAuthenticate : String → String → String → String → Nat → String

/-- One HTTP request issued through the connection
(`conn.request(method, url, body, headers)`). -/
structure Request where
  method : String
  url : String
  body : Option String
  headers : List (String × String)
deriving DecidableEq

/-- The raw HTTPS connection: `HTTPSConnection(host, port)` opens it; the
handshake never closes it. -/
structure Conn where
  host : String
  port : Nat
  isOpen : Bool
deriving DecidableEq

/-- The exceptions `_new_conn` can raise, one constructor per raise site
(plus the implicit `KeyError` of the dict lookup on line 77). -/
inductive HandshakeError where
  | keyError (key : String)
  | unexpectedAuthHeader (raw : String)
  | serverRejected
  | wrongServerResponse (status : Nat) (reason : String)
deriving DecidableEq

/-- The message text of each exception, mirroring the Python f-strings. -/
def errMessage : HandshakeError → String
  | .keyError k => k
  | .unexpectedAuthHeader raw =>
    "Unexpected www-authenticate response header: " ++ raw
  | .serverRejected => "Server rejected request: wrong username or password"
  | .wrongServerResponse status reason =>
    "Wrong server response: " ++ toString status ++ " " ++ reason

/-- Full trace of one `_new_conn` call: the requests issued on the single
connection, whether each received response had its socket reference
detached (`res.fp = None`), whether the connection was ever closed, and
the outcome (returned connection or raised exception). -/
structure HandshakeResult where
  requests : List Request
  fpDetached : List Bool
  connClosed : Bool
  outcome : Except HandshakeError Conn

/-- `NTLMConnectionPool._new_conn`, with the two responses the scripted
transport will deliver passed explicitly.  Follows the source line by
line: open the connection, send the NEGOTIATE GET, detach the first
response's socket reference, look up `www-authenticate` in the response
dict, scan for the challenge token, send the AUTHENTICATE GET with the
mutated header dict, and resolve on the second status. -/
def newConn (lib : NtlmLib) (p : Pool) (resp1 resp2 : Response) :
    HandshakeResult :=
  let conn : Conn := ⟨p.host, p.port, true⟩
  let headers1 : List (String × String) :=
    [("Connection", "Keep-Alive"),
     ("Authorization", "NTLM " ++ lib.createNegotiate p.rawuser)]
  let req1 : Request := ⟨"GET", p.authurl, none, headers1⟩
  let reshdr := pyDict resp1.headers
  match dictGet? reshdr "www-authenticate" with
  | none =>
    ⟨[req1], [true], false, .error (.keyError "www-authenticate")⟩
  | some hv =>
    match extractChallenge hv with
    | none =>
      ⟨[req1], [true], false, .error (.unexpectedAuthHeader hv)⟩
    | some tok =>
      let sc := (lib.parseChallenge tok).1
      let nf := (lib.parseChallenge tok).2
      let authMsg := lib.createAuthenticate sc p.user p.domain p.pw nf
      let headers2 := dictInsert headers1 "Authorization" ("NTLM " ++ authMsg)
      let req2 : Request := ⟨"GET", p.authurl, none, headers2⟩
      if resp2.status ≠ 200 then
        if resp2.status = 401 then
          ⟨[req1, req2], [true, false], false, .error .serverRejected⟩
        else
          ⟨[req1, req2], [true, false], false,
           .error (.wrongServerResponse resp2.status resp2.reason)⟩
      else
        ⟨[req1, req2], [true, true], false, .ok conn⟩

/-- The delegated call made by `urlopen` to the generic pool
(`super().urlopen(...)`). -/
structure DelegatedCall where
  method : String
  url : String
  body : Option String
  headers : List (String × String)
  retries : Nat
  redirect : Bool
  assertSameHost : Bool
deriving DecidableEq

/-- `NTLMConnectionPool.urlopen`: replaces a missing header map by an
empty dict, force-sets `Connection: Keep-Alive` in place, and delegates.
The first component is the caller's header map after the in-place
mutation; the delegated call forwards that same map. -/
def urlopen (method url : String) (body : Option String)
    (headers : Option (List (String × String))) (retries : Nat)
    (redirect assertSameHost : Bool) :
    List (String × String) × DelegatedCall :=
  let h0 := match headers with | none => [] | some h => h
  let h1 := dictInsert h0 "Connection" "Keep-Alive"
  (h1, ⟨method, url, body, h1, retries, redirect, assertSameHost⟩)

/-- A concrete codec instance used to evaluate the handshake on scripted
inputs. -/
def testLib : NtlmLib :=
  ⟨fun u => "neg(" ++ u ++ ")",
   fun t => ("chal(" ++ t ++ ")", 7),
   fun sc u d pw nf =>
     "auth(" ++ sc ++ "," ++ u ++ "," ++ d ++ "," ++ pw ++ ","
       ++ toString nf ++ ")"⟩

/-- A concrete pool used to evaluate the handshake on scripted inputs. -/
def testPool : Pool :=
  ⟨"example.com", 443, "/auth", "dom\\alice", "DOM", "alice", "pw"⟩

/-- The token the spec describes, written from its words as amended: of
the comma-space separated tokens, the LAST one whose first five
characters are exactly the string NTLM followed by a space, with that
five-character prefix stripped. -/
def lastNtlmToken (hv : String) : Option String :=
  ((pySplit hv ", ").reverse.find? (fun s => decide (pyTake 5 s = "NTLM "))).map
    (fun s => pyDrop 5 s)

theorem dictGet?_dictInsert_self (m : List (String × String)) (k v : String) :
    dictGet? (dictInsert m k v) k = some v := by
  induction m with
  | nil => simp [dictInsert, dictGet?]
  | cons kv rest ih =>
    obtain ⟨k₀, v₀⟩ := kv
    by_cases h : k₀ = k
    · simp [dictInsert, dictGet?, h]
    · simp [dictInsert, dictGet?, h, ih]

theorem dictGet?_dictInsert_ne (m : List (String × String)) (k v k' : String)
    (h : k' ≠ k) : dictGet? (dictInsert m k v) k' = dictGet? m k' := by
  have h' : ¬ k = k' := fun hk => h hk.symm
  induction m with
  | nil => simp [dictInsert, dictGet?, h']
  | cons kv rest ih =>
    obtain ⟨k₀, v₀⟩ := kv
    by_cases h₀ : k₀ = k
    · subst h₀; simp [dictInsert, dictGet?, h']
    · simp [dictInsert, dictGet?, h₀, ih]

theorem dictInsert_dictInsert (m : List (String × String)) (k v v' : String) :
    dictInsert (dictInsert m k v) k v' = dictInsert m k v' := by
  induction m with
  | nil => simp [dictInsert]
  | cons kv rest ih =>
    obtain ⟨k₀, v₀⟩ := kv
    by_cases h : k₀ = k
    · simp [dictInsert, h]
    · simp [dictInsert, h, ih]

theorem splitFirstAux_eq_none (sep : Char) (l : List Char) (h : sep ∉ l) :
    splitFirstAux sep l = none := by
  induction l with
  | nil => rfl
  | cons c cs ih =>
    simp only [List.mem_cons, not_or] at h
    have h1 : ¬ c = sep := fun hc => h.1 hc.symm
    simp [splitFirstAux, h1, ih h.2]

theorem splitFirstAux_append (sep : Char) (l r : List Char) (h : sep ∉ l) :
    splitFirstAux sep (l ++ sep :: r) = some (l, r) := by
  induction l with
  | nil => simp [splitFirstAux]
  | cons c cs ih =>
    simp only [List.mem_cons, not_or] at h
    have h1 : ¬ c = sep := fun hc => h.1 hc.symm
    simp [splitFirstAux, h1, ih h.2]

theorem foldl_last_assign (p : String → Prop) [DecidablePred p]
    (f : String → String) (l : List String) (acc : Option String) :
    l.foldl (fun a s => if p s then some (f s) else a) acc
      = (l.reverse.find? (fun s => decide (p s))).elim acc
          (fun s => some (f s)) := by
  induction l generalizing acc with
  | nil => simp
  | cons a t ih =>
    rw [List.foldl_cons, ih]
    rw [List.reverse_cons, List.find?_append]
    cases hfind : t.reverse.find? (fun s => decide (p s)) with
    | some s => simp [Option.or]
    | none => by_cases hp : p a <;> simp [Option.or, hp]

/-- C1: the claim says the FIRST token prefixed with NTLM and a space is
used as the challenge; on the header value containing two such tokens the
code uses the second (last) one, not the first. -/
theorem C1_counterexample :
    extractChallenge "NTLM aaa, NTLM bbb" = some "bbb" ∧
      some "bbb" ≠ some ("aaa" : String) := by
  exact ⟨by decide, by decide⟩

/-- C1 (amended): the handshake splits the header value on comma-space
and uses as the challenge token the LAST token whose first five
characters are exactly NTLM followed by a space; earlier matching tokens
are overwritten by the scanning loop. -/
theorem C1_last_ntlm_token (hv : String) :
    extractChallenge hv = lastNtlmToken hv := by
  unfold extractChallenge findChallenge lastNtlmToken
  rw [foldl_last_assign (fun s => pyTake 5 s = "NTLM ") (fun s => pyDrop 5 s)]
  cases (pySplit hv ", ").reverse.find? (fun s => decide (pyTake 5 s = "NTLM "))
    <;> simp

/-- C2: for every identifier containing no backslash, pool construction
fails (the model of the second-part lookup raising at construction time),
so no pool value exists and no connection or handshake can follow. -/
theorem C2_no_backslash_fails (user pw authurl host : String) (port : Nat)
    (h : '\\' ∉ user.data) :
    poolInit user pw authurl host port = .error .indexError := by
  unfold poolInit
  rw [splitFirstAux_eq_none '\\' user.data h]

theorem C2_no_backslash_fails_witness :
    '\\' ∉ "justuser".data ∧
      poolInit "justuser" "pw" "/auth" "example.com" 443 =
        .error .indexError :=
  ⟨by decide,
   C2_no_backslash_fails "justuser" "pw" "/auth" "example.com" 443 (by decide)⟩

/-- C4: for every identifier with at least one backslash, construction
splits on the FIRST backslash, upper-cases the part before it into the
domain, and stores the part after it verbatim (later backslashes and case
preserved) as the username; the raw identifier is kept unchanged. -/
theorem C4_split_first_backslash (d u pw authurl host : String) (port : Nat)
    (hd : '\\' ∉ d.data) :
    poolInit (d ++ "\\" ++ u) pw authurl host port =
      .ok ⟨host, port, authurl, d ++ "\\" ++ u, pyUpper d, u, pw⟩ := by
  unfold poolInit
  have hdata : (d ++ "\\" ++ u).data = d.data ++ '\\' :: u.data := by
    simp [String.data_append]
  rw [hdata, splitFirstAux_append '\\' d.data u.data hd]

theorem C4_split_first_backslash_witness :
    '\\' ∉ "dom".data ∧
      poolInit ("dom" ++ "\\" ++ "us\\er") "pw" "/auth" "example.com" 443 =
        .ok ⟨"example.com", 443, "/auth", "dom" ++ "\\" ++ "us\\er",
             pyUpper "dom", "us\\er", "pw"⟩ :=
  ⟨by decide,
   C4_split_first_backslash "dom" "us\\er" "pw" "/auth" "example.com" 443
     (by decide)⟩

/-- C3: with a challenge extracted from the first response, the second
response's status resolves the handshake: 200 returns the live
connection, 401 raises the rejection error, and any other status raises
the error carrying that status and reason; the rejection error is a
different value from every status-carrying error. -/
theorem C3_status_resolution (lib : NtlmLib) (p : Pool)
    (resp1 resp2 : Response) (hv tok : String)
    (hH : dictGet? (pyDict resp1.headers) "www-authenticate" = some hv)
    (hC : extractChallenge hv = some tok) :
    (resp2.status = 200 →
      (newConn lib p resp1 resp2).outcome = .ok ⟨p.host, p.port, true⟩) ∧
    (resp2.status = 401 →
      (newConn lib p resp1 resp2).outcome = .error .serverRejected) ∧
    (resp2.status ≠ 200 → resp2.status ≠ 401 →
      (newConn lib p resp1 resp2).outcome =
        .error (.wrongServerResponse resp2.status resp2.reason)) ∧
    (HandshakeError.serverRejected ≠
      HandshakeError.wrongServerResponse resp2.status resp2.reason) := by
  refine ⟨fun h200 => ?_, fun h401 => ?_, fun hn200 hn401 => ?_, by simp⟩
  · simp [newConn, hH, hC, h200]
  · simp [newConn, hH, hC, h401]
  · simp [newConn, hH, hC, hn200, hn401]

theorem C3_status_resolution_witness :
    (newConn testLib testPool ⟨401, "U", [("www-authenticate", "NTLM abc")]⟩
        ⟨200, "OK", []⟩).outcome = .ok ⟨"example.com", 443, true⟩ ∧
    (newConn testLib testPool ⟨401, "U", [("www-authenticate", "NTLM abc")]⟩
        ⟨401, "Unauthorized", []⟩).outcome = .error .serverRejected ∧
    (newConn testLib testPool ⟨401, "U", [("www-authenticate", "NTLM abc")]⟩
        ⟨500, "Server Error", []⟩).outcome =
      .error (.wrongServerResponse 500 "Server Error") :=
  ⟨(C3_status_resolution testLib testPool
      ⟨401, "U", [("www-authenticate", "NTLM abc")]⟩ ⟨200, "OK", []⟩
      "NTLM abc" "abc" (by decide) (by decide)).1 rfl,
   (C3_status_resolution testLib testPool
      ⟨401, "U", [("www-authenticate", "NTLM abc")]⟩ ⟨401, "Unauthorized", []⟩
      "NTLM abc" "abc" (by decide) (by decide)).2.1 rfl,
   (C3_status_resolution testLib testPool
      ⟨401, "U", [("www-authenticate", "NTLM abc")]⟩ ⟨500, "Server Error", []⟩
      "NTLM abc" "abc" (by decide) (by decide)).2.2.1 (by decide) (by decide)⟩

/-- C5: when the header value is present but carries no NTLM-prefixed
token, the handshake raises the diagnostic error whose message appends
the raw header value, after sending only the single NEGOTIATE request
(no AUTHENTICATE request is issued). -/
theorem C5_missing_token (lib : NtlmLib) (p : Pool) (resp1 resp2 : Response)
    (hv : String)
    (hH : dictGet? (pyDict resp1.headers) "www-authenticate" = some hv)
    (hN : extractChallenge hv = none) :
    (newConn lib p resp1 resp2).outcome =
      .error (.unexpectedAuthHeader hv) ∧
    errMessage (.unexpectedAuthHeader hv) =
      "Unexpected www-authenticate response header: " ++ hv ∧
    (newConn lib p resp1 resp2).requests =
      [⟨"GET", p.authurl, none,
        [("Connection", "Keep-Alive"),
         ("Authorization", "NTLM " ++ lib.createNegotiate p.rawuser)]⟩] := by
  refine ⟨?_, rfl, ?_⟩ <;> simp [newConn, hH, hN]

theorem C5_missing_token_witness :
    (newConn testLib testPool ⟨401, "U", [("www-authenticate", "Basic r=x")]⟩
        ⟨200, "OK", []⟩).outcome =
      .error (.unexpectedAuthHeader "Basic r=x") ∧
    errMessage (.unexpectedAuthHeader "Basic r=x") =
      "Unexpected www-authenticate response header: " ++ "Basic r=x" ∧
    (newConn testLib testPool ⟨401, "U", [("www-authenticate", "Basic r=x")]⟩
        ⟨200, "OK", []⟩).requests =
      [⟨"GET", "/auth", none,
        [("Connection", "Keep-Alive"),
         ("Authorization", "NTLM " ++ testLib.createNegotiate "dom\\alice")]⟩] :=
  C5_missing_token testLib testPool ⟨401, "U", [("www-authenticate", "Basic r=x")]⟩
    ⟨200, "OK", []⟩ "Basic r=x" (by decide) (by decide)

/-- C6: a connection is returned only when the second status is 200; in
that case the returned connection is the single one opened (still open),
the handshake never closed it, both requests were issued, and both
responses had their socket reference detached rather than closed. -/
theorem C6_only_authenticated_returned (lib : NtlmLib) (p : Pool)
    (resp1 resp2 : Response) (c : Conn)
    (h : (newConn lib p resp1 resp2).outcome = .ok c) :
    resp2.status = 200 ∧ c = ⟨p.host, p.port, true⟩ ∧ c.isOpen = true ∧
    (newConn lib p resp1 resp2).connClosed = false ∧
    (newConn lib p resp1 resp2).fpDetached = [true, true] ∧
    (newConn lib p resp1 resp2).requests.length = 2 := by
  cases hd : dictGet? (pyDict resp1.headers) "www-authenticate" with
  | none => simp [newConn, hd] at h
  | some hv =>
    cases hc : extractChallenge hv with
    | none => simp [newConn, hd, hc] at h
    | some tok =>
      by_cases hs : resp2.status = 200
      · have hc' : c = ⟨p.host, p.port, true⟩ := by
          simp [newConn, hd, hc, hs] at h
          exact h.symm
        subst hc'
        refine ⟨hs, rfl, rfl, ?_, ?_, ?_⟩ <;> simp [newConn, hd, hc, hs]
      · by_cases h4 : resp2.status = 401
        · simp [newConn, hd, hc, hs, h4] at h
        · simp [newConn, hd, hc, hs, h4] at h

theorem C6_only_authenticated_returned_witness :
    (⟨200, "OK", []⟩ : Response).status = 200 ∧
    (⟨"example.com", 443, true⟩ : Conn) = ⟨"example.com", 443, true⟩ ∧
    (⟨"example.com", 443, true⟩ : Conn).isOpen = true ∧
    (newConn testLib testPool
        ⟨401, "U", [("www-authenticate", "NTLM abc")]⟩
        ⟨200, "OK", []⟩).connClosed = false ∧
    (newConn testLib testPool
        ⟨401, "U", [("www-authenticate", "NTLM abc")]⟩
        ⟨200, "OK", []⟩).fpDetached = [true, true] ∧
    (newConn testLib testPool
        ⟨401, "U", [("www-authenticate", "NTLM abc")]⟩
        ⟨200, "OK", []⟩).requests.length = 2 :=
  C6_only_authenticated_returned testLib testPool
    ⟨401, "U", [("www-authenticate", "NTLM abc")]⟩ ⟨200, "OK", []⟩
    ⟨"example.com", 443, true⟩ (by decide)

/-- C8: on the success path the handshake issues exactly two GET requests
to the auth path on the single opened connection: the first with the
NEGOTIATE token built from the raw identifier, the second with the
AUTHENTICATE token built from the challenge and flags parsed out of the
first response's token; no other request appears in the trace. -/
theorem C8_two_gets (lib : NtlmLib) (p : Pool) (resp1 resp2 : Response)
    (hv tok : String)
    (hH : dictGet? (pyDict resp1.headers) "www-authenticate" = some hv)
    (hC : extractChallenge hv = some tok)
    (hS : resp2.status = 200) :
    (newConn lib p resp1 resp2).requests =
      [⟨"GET", p.authurl, none,
        [("Connection", "Keep-Alive"),
         ("Authorization", "NTLM " ++ lib.createNegotiate p.rawuser)]⟩,
       ⟨"GET", p.authurl, none,
        [("Connection", "Keep-Alive"),
         ("Authorization",
          "NTLM " ++ lib.createAuthenticate (lib.parseChallenge tok).1 p.user
            p.domain p.pw (lib.parseChallenge tok).2)]⟩] ∧
    (newConn lib p resp1 resp2).outcome = .ok ⟨p.host, p.port, true⟩ := by
  constructor <;> simp [newConn, hH, hC, hS, dictInsert]

theorem C8_two_gets_witness :
    (newConn testLib testPool ⟨401, "U", [("www-authenticate", "NTLM abc")]⟩
        ⟨200, "OK", []⟩).requests =
      [⟨"GET", "/auth", none,
        [("Connection", "Keep-Alive"),
         ("Authorization", "NTLM " ++ testLib.createNegotiate "dom\\alice")]⟩,
       ⟨"GET", "/auth", none,
        [("Connection", "Keep-Alive"),
         ("Authorization",
          "NTLM " ++ testLib.createAuthenticate
            (testLib.parseChallenge "abc").1 "alice" "DOM" "pw"
            (testLib.parseChallenge "abc").2)]⟩] ∧
    (newConn testLib testPool ⟨401, "U", [("www-authenticate", "NTLM abc")]⟩
        ⟨200, "OK", []⟩).outcome = .ok ⟨"example.com", 443, true⟩ :=
  C8_two_gets testLib testPool ⟨401, "U", [("www-authenticate", "NTLM abc")]⟩
    ⟨200, "OK", []⟩ "NTLM abc" "abc" (by decide) (by decide) rfl

/-- C9: a first-response header dict with no entry under the exact
lowercase key raises the key-lookup error, and the diagnostic error
carrying a raw header value arises exactly when that entry is present but
holds no NTLM-prefixed token. -/
theorem C9_keyerror_on_missing_header (lib : NtlmLib) (p : Pool)
    (resp1 resp2 : Response) :
    (dictGet? (pyDict resp1.headers) "www-authenticate" = none →
      (newConn lib p resp1 resp2).outcome =
        .error (.keyError "www-authenticate")) ∧
    (∀ hv, (newConn lib p resp1 resp2).outcome =
        .error (.unexpectedAuthHeader hv) →
      dictGet? (pyDict resp1.headers) "www-authenticate" = some hv ∧
        extractChallenge hv = none) := by
  constructor
  · intro h
    simp [newConn, h]
  · intro hv h
    cases hd : dictGet? (pyDict resp1.headers) "www-authenticate" with
    | none => simp [newConn, hd] at h
    | some hv' =>
      cases hc : extractChallenge hv' with
      | none =>
        simp [newConn, hd, hc] at h
        subst h
        exact ⟨rfl, hc⟩
      | some tok =>
        by_cases hs : resp2.status = 200
        · simp [newConn, hd, hc, hs] at h
        · by_cases h4 : resp2.status = 401
          · simp [newConn, hd, hc, hs, h4] at h
          · simp [newConn, hd, hc, hs, h4] at h

theorem C9_keyerror_on_missing_header_witness :
    (dictGet? (pyDict [("WWW-Authenticate", "NTLM x")]) "www-authenticate" =
      none) ∧
    (newConn testLib testPool ⟨401, "U", [("WWW-Authenticate", "NTLM x")]⟩
        ⟨200, "OK", []⟩).outcome = .error (.keyError "www-authenticate") :=
  ⟨by decide,
   (C9_keyerror_on_missing_header testLib testPool
      ⟨401, "U", [("WWW-Authenticate", "NTLM x")]⟩ ⟨200, "OK", []⟩).1
     (by decide)⟩

/-- C7: the dispatch wrapper force-sets the Connection header to
Keep-Alive (creating an empty map when none is given, overwriting any
existing value), forwards method, url, body, retries, redirect and the
same-host flag unchanged, leaves every other header untouched, and the
header mutation is idempotent: re-dispatching the already forwarded map
forwards it identically. -/
theorem C7_forces_keepalive (method url : String) (body : Option String)
    (headers : Option (List (String × String))) (retries : Nat)
    (redirect assertSameHost : Bool) :
    dictGet? (urlopen method url body headers retries redirect
        assertSameHost).2.headers "Connection" = some "Keep-Alive" ∧
    (urlopen method url body headers retries redirect
        assertSameHost).2.method = method ∧
    (urlopen method url body headers retries redirect
        assertSameHost).2.url = url ∧
    (urlopen method url body headers retries redirect
        assertSameHost).2.body = body ∧
    (urlopen method url body headers retries redirect
        assertSameHost).2.retries = retries ∧
    (urlopen method url body headers retries redirect
        assertSameHost).2.redirect = redirect ∧
    (urlopen method url body headers retries redirect
        assertSameHost).2.assertSameHost = assertSameHost ∧
    (∀ k, k ≠ "Connection" →
      dictGet? (urlopen method url body headers retries redirect
          assertSameHost).2.headers k =
        dictGet? (headers.getD []) k) ∧
    (headers = none →
      (urlopen method url body headers retries redirect
          assertSameHost).2.headers = [("Connection", "Keep-Alive")]) ∧
    (urlopen method url body
        (some (urlopen method url body headers retries redirect
          assertSameHost).2.headers) retries redirect
        assertSameHost).2.headers =
      (urlopen method url body headers retries redirect
        assertSameHost).2.headers := by
  refine ⟨?_, rfl, rfl, rfl, rfl, rfl, rfl, ?_, ?_, ?_⟩
  · exact dictGet?_dictInsert_self _ _ _
  · intro k hk
    cases headers with
    | none => exact dictGet?_dictInsert_ne _ _ _ _ hk
    | some h => exact dictGet?_dictInsert_ne _ _ _ _ hk
  · intro h
    subst h
    rfl
  · exact dictInsert_dictInsert _ _ _ _

theorem C7_forces_keepalive_witness :
    dictGet? (urlopen "GET" "/x" none
        (some [("Connection", "close"), ("Accept", "gzip")]) 3 true
        true).2.headers "Connection" = some "Keep-Alive" ∧
    dictGet? (urlopen "GET" "/x" none
        (some [("Connection", "close"), ("Accept", "gzip")]) 3 true
        true).2.headers "Accept" =
      dictGet? ((some [("Connection", "close"),
        ("Accept", "gzip")]).getD []) "Accept" :=
  ⟨(C7_forces_keepalive "GET" "/x" none
      (some [("Connection", "close"), ("Accept", "gzip")]) 3 true true).1,
   (C7_forces_keepalive "GET" "/x" none
      (some [("Connection", "close"), ("Accept", "gzip")]) 3 true
      true).2.2.2.2.2.2.2.1 "Accept" (by decide)⟩

/-- C10: with a non-empty caller header map, the wrapper mutates that map
in place: afterwards its Connection entry is Keep-Alive, every other
entry is unchanged, and the very map the caller now holds is the one
forwarded to the generic pool. -/
theorem C10_mutates_in_place (method url : String) (body : Option String)
    (h : List (String × String)) (retries : Nat)
    (redirect assertSameHost : Bool) (_hne : h ≠ []) :
    dictGet? (urlopen method url body (some h) retries redirect
        assertSameHost).1 "Connection" = some "Keep-Alive" ∧
    (∀ k, k ≠ "Connection" →
      dictGet? (urlopen method url body (some h) retries redirect
          assertSameHost).1 k = dictGet? h k) ∧
    (urlopen method url body (some h) retries redirect
        assertSameHost).2.headers =
      (urlopen method url body (some h) retries redirect
        assertSameHost).1 := by
  refine ⟨dictGet?_dictInsert_self _ _ _, ?_, rfl⟩
  intro k hk
  exact dictGet?_dictInsert_ne _ _ _ _ hk

theorem C10_mutates_in_place_witness :
    dictGet? (urlopen "GET" "/x" none
        (some [("Connection", "close"), ("Accept", "gzip")]) 3 true
        true).1 "Connection" = some "Keep-Alive" ∧
    dictGet? (urlopen "GET" "/x" none
        (some [("Connection", "close"), ("Accept", "gzip")]) 3 true
        true).1 "Accept" =
      dictGet? [("Connection", "close"), ("Accept", "gzip")] "Accept" ∧
    (urlopen "GET" "/x" none
        (some [("Connection", "close"), ("Accept", "gzip")]) 3 true
        true).2.headers =
      (urlopen "GET" "/x" none
        (some [("Connection", "close"), ("Accept", "gzip")]) 3 true
        true).1 :=
  have base := C10_mutates_in_place "GET" "/x" none
    [("Connection", "close"), ("Accept", "gzip")] 3 true true (by decide)
  ⟨base.1, base.2.1 "Accept" (by decide), base.2.2⟩

end Ntlmpool
